import Mathlib

/-!
Shallow embedding of the core of the "Prime Baby Moonfall" scene module
(`src/src/app/page.tsx`) and verification of its specified properties.

JavaScript numbers are modelled as exact rationals (ℚ); 32-bit integer
operations of the seeded PRNG are modelled on bit patterns in ℕ with explicit
`% 2^32` wraparound, matching the ToInt32/ToUint32 coercions that every JS
bitwise operator performs.  Canvas style strings are modelled as `String`.
Fallible steps (image encoding, which can throw in the browser) are modelled
with `Except`, the error carrying the state left behind when the exception
propagates.  Transcendental functions (`Math.sin`, `Math.cos`) and external
collaborators (the mesh normal recomputation of three.js) are taken as
function parameters, so every theorem quantifies over their behaviour.
-/

namespace Moonfall

/-! ### Seeded PRNG — `createSeededRandom`, page.tsx lines 68–76 -/

/-- ToUint32 wraparound: keeps the low 32 bits of a bit pattern.  Every JS
bitwise operator (`|`, `^`, `>>>`, `Math.imul`) coerces its result to 32 bits;
signed int32 values are represented by their (unsigned) bit pattern, which is
sound because two's-complement addition and multiplication agree with
arithmetic on patterns modulo 2^32. -/
def u32 (n : ℕ) : ℕ := n % 4294967296

/-- Bit pattern of `seed |= 0` (ToInt32) for an arbitrary integer seed,
including 0 and negative seeds, via two's-complement wraparound. -/
def toPattern (z : ℤ) : ℕ := (z % (4294967296 : ℤ)).toNat

/-- One call of the closure returned by `createSeededRandom` (page.tsx 69–75):
`seed = (seed + 0x6d2b79f5) | 0; let t = Math.imul(seed ^ (seed >>> 15), 1 | seed);
t = (t + Math.imul(t ^ (t >>> 7), 61 | t)) ^ t;
return ((t ^ (t >>> 14)) >>> 0) / 4294967296;`
Returns the updated closure state and the value produced. -/
def prngStep (s : ℕ) : ℕ × ℚ :=
  let s1 := u32 (s + 0x6d2b79f5)
  let t1 := u32 ((s1 ^^^ (s1 >>> 15)) * (1 ||| s1))
  let t2 := u32 (u32 (t1 + u32 ((t1 ^^^ (t1 >>> 7)) * (61 ||| t1))) ^^^ t1)
  let out := u32 (t2 ^^^ (t2 >>> 14))
  (s1, (out : ℚ) / 4294967296)

/-- The first `n` outputs of the PRNG closure started in state `s`. -/
def prngRun : ℕ → ℕ → List ℚ
  | _, 0 => []
  | s, n + 1 =>
    let r := prngStep s
    r.2 :: prngRun r.1 n

/-- The output sequence (first `n` values) of `createSeededRandom seed`. -/
def createSeededRandom (seed : ℤ) (n : ℕ) : List ℚ :=
  prngRun (toPattern seed) n

/-- Modelled from the spec: the 3D noise field of spec §4.2 is provided by the
external `simplex-noise` package (`createNoise3D`, imported at page.tsx line
58), whose source is not part of this repository.  Following the spec's words
it is embedded as a pure, continuous scalar field that is a function only of
the seed-derived PRNG stream and of the sample point, exposing no mutable
state after construction. -/
def noiseSample (seed : ℤ) (x y z : ℚ) : ℚ :=
  let r := createSeededRandom seed 3
  r.getD 0 0 * x + r.getD 1 0 * y + r.getD 2 0 * z

/-! ### Rock displacement engine — `Rock`, page.tsx lines 304–336 -/

/-- A 3D vector with exact rational components. -/
structure Vec3 where
  x : ℚ
  y : ℚ
  z : ℚ
deriving DecidableEq

/-- Componentwise scalar multiplication, the effect of
`temp.multiplyScalar(displacement)`. -/
def smul (a : ℚ) (v : Vec3) : Vec3 := ⟨a * v.x, a * v.y, a * v.z⟩

/-- Body of the per-vertex displacement loop (page.tsx 327–332): sample the
noise on two frequency bands at scaled copies of the pre-displacement
position, combine into a scalar, and multiply the position by it.  The noise
function is a parameter (the code passes the simplex noise built from seed
1337). -/
def displaceVertex (noise : ℚ → ℚ → ℚ → ℚ) (v : Vec3) : Vec3 :=
  let noiseValue := noise (v.x * 0.65) (v.y * 0.8) (v.z * 0.65)
  let ridge := noise (v.x * 1.2) (v.y * 0.4) (v.z * 1.4)
  let displacement := 1 + noiseValue * 0.55 + |ridge| ^ 3 * 0.3
  smul displacement v

/-- A mesh as the displacement engine sees it: vertex positions, triangle
indices, vertex normals. -/
structure BufferGeometry where
  positions : List Vec3
  indices : List ℕ
  normals : List Vec3

/-- The whole displacement pass of `Rock` (page.tsx 326–334): every entry of
the position attribute is displaced, the index list is untouched, and the
normals are recomputed from the final geometry
(`geo.computeVertexNormals()`).  Normal recomputation is an external
collaborator (three.js), taken as the parameter `computeVertexNormals`. -/
def displaceGeometry (noise : ℚ → ℚ → ℚ → ℚ)
    (computeVertexNormals : List Vec3 → List ℕ → List Vec3)
    (g : BufferGeometry) : BufferGeometry :=
  let newPositions := g.positions.map (displaceVertex noise)
  { positions := newPositions
    indices := g.indices
    normals := computeVertexNormals newPositions g.indices }

/-! ### Flow particle simulator — `Waterfall` and `Spray`,
page.tsx lines 360–433 and 458–496 -/

/-- The IEEE-754 double value of `Math.PI` (exactly 884279719003555 / 2^48). -/
def jsPI : ℚ := 884279719003555 / 281474976710656

/-- Truncation toward zero, as JS `%` and `~~` use. -/
def jsTrunc (q : ℚ) : ℤ := if 0 ≤ q then ⌊q⌋ else ⌈q⌉

/-- The JS remainder operator `a % b`: `a - b * trunc(a / b)`. -/
def jsMod (a b : ℚ) : ℚ := a - b * jsTrunc (a / b)

/-- `THREE.MathUtils.lerp(x, y, t) = (1 - t) * x + t * y`. -/
def lerp (x y t : ℚ) : ℚ := (1 - t) * x + t * y

/-- `THREE.MathUtils.clamp(value, lo, hi) = max(lo, min(hi, value))`. -/
def clamp (value lo hi : ℚ) : ℚ := max lo (min hi value)

/-- `THREE.MathUtils.randFloatSpread(range)` = `range * (0.5 - Math.random())`,
with the `Math.random()` draw passed in as `r`. -/
def randFloatSpread (range r : ℚ) : ℚ := range * (0.5 - r)

/-- Per-particle constants of the waterfall (type `Particle`, page.tsx
360–364). -/
structure Particle where
  offset : ℚ
  speed : ℚ
  jitter : ℚ
deriving DecidableEq

/-- Pool size constant `WATERFALL_PARTICLES` (page.tsx line 62). -/
def WATERFALL_PARTICLES : ℕ := 900

/-- Creation of waterfall particle `i` (page.tsx 382–386).  The code draws
`offset: Math.random(), speed: 0.18 + Math.random() * 0.32,
jitter: MathUtils.randFloatSpread(0.65)`; `Math.random` is modelled as an
entropy oracle `rand`, consumed in call order: particle `i` uses draws
`3*i`, `3*i+1`, `3*i+2`. -/
def mkWaterfallParticle (rand : ℕ → ℚ) (i : ℕ) : Particle :=
  { offset := rand (3 * i)
    speed := 0.18 + rand (3 * i + 1) * 0.32
    jitter := randFloatSpread 0.65 (rand (3 * i + 2)) }

/-- The full waterfall pool created at system start (page.tsx 381–387). -/
def mkWaterfallParticles (rand : ℕ → ℚ) : List Particle :=
  (List.range WATERFALL_PARTICLES).map (mkWaterfallParticle rand)

/-- Per-particle constants of the spray (page.tsx 461–467). -/
structure SprayParticle where
  baseTheta : ℚ
  radius : ℚ
  speed : ℚ
  height : ℚ
  jitter : ℚ
deriving DecidableEq

/-- Spray pool size (the literal `180` at page.tsx line 461). -/
def SPRAY_PARTICLES : ℕ := 180

/-- Creation of spray particle `i` (page.tsx 462–466), consuming five
`Math.random()` draws in call order. -/
def mkSprayParticle (rand : ℕ → ℚ) (i : ℕ) : SprayParticle :=
  { baseTheta := rand (5 * i) * jsPI * 2
    radius := 0.05 + rand (5 * i + 1) * 0.2
    speed := 0.6 + rand (5 * i + 2) * 0.4
    height := rand (5 * i + 3) * 0.5
    jitter := rand (5 * i + 4) * 2 }

/-- The full spray pool created at system start (page.tsx 460–468). -/
def mkSprayParticles (rand : ℕ → ℚ) : List SprayParticle :=
  (List.range SPRAY_PARTICLES).map (mkSprayParticle rand)

/-- One simulation tick of a waterfall particle (page.tsx line 393):
`particle.offset = (particle.offset + delta * particle.speed) % 1`. -/
def advanceProgress (speed delta offset : ℚ) : ℚ :=
  jsMod (offset + delta * speed) 1

/-- Progress after a sequence of ticks with the given `deltaTime` values. -/
def runProgress (speed offset : ℚ) (deltas : List ℚ) : ℚ :=
  deltas.foldl (fun acc d => advanceProgress speed d acc) offset

/-- `THREE.Vector3.lerpVectors(a, b, t)`: componentwise `a + (b - a) * t`. -/
def lerpVec (a b : Vec3) (t : ℚ) : Vec3 :=
  ⟨a.x + (b.x - a.x) * t, a.y + (b.y - a.y) * t, a.z + (b.z - a.z) * t⟩

/-- The waterfall flow curve `flowPosition` (page.tsx 366–377).  `Math.sin`
and `Math.cos` are taken as function parameters `sine` and `cosine`; the
curve end point (named `end` in the source, a keyword here) is `stop`. -/
def flowPosition (sine cosine : ℚ → ℚ) (progress jitter : ℚ) : Vec3 :=
  let p := clamp progress 0 1
  let start : Vec3 := ⟨0.16, 3.54, 0.46⟩
  let stop : Vec3 := ⟨-0.3 + jitter * 0.12, -1.4 - jitter * 0.5, -0.3 + jitter * 0.18⟩
  let curveHeight := 1.8 + sine (p * jsPI) * 0.6
  let pos := lerpVec start stop p
  ⟨pos.x + sine (p * jsPI * 1.2 + jitter * 4.2) * 0.18,
   pos.y + sine (p * jsPI) * curveHeight,
   pos.z + cosine (p * jsPI * 1.6 + jitter * 3.6) * 0.1⟩

/-- The per-frame droplet scale (page.tsx line 396):
`MathUtils.lerp(0.05, 0.28, 1 - Math.pow(1 - particle.offset, 2))`. -/
def waterfallScale (progress : ℚ) : ℚ :=
  lerp 0.05 0.28 (1 - (1 - progress) ^ 2)

/-! ### Capture pipeline — `CaptureBridge.capture`, page.tsx lines 83–117,
and the export trigger `handleExport`, page.tsx lines 573–589 -/

/-- Export resolution constants (page.tsx lines 60–61). -/
def EXPORT_WIDTH : ℚ := 3200

/-- Export height constant (page.tsx line 61). -/
def EXPORT_HEIGHT : ℚ := 4000

/-- The mutable state of the render target and camera that `capture` touches:
renderer pixel density (`getPixelRatio`/`setPixelRatio`), drawing-buffer
viewport size (`getSize`/`setSize`), the perspective camera aspect, the
aspect baked into the projection matrix by the last
`updateProjectionMatrix()` call, and the canvas display style strings. -/
structure RenderState where
  pixelDensity : ℚ
  width : ℚ
  height : ℚ
  aspect : ℚ
  projectionAspect : ℚ
  styleWidth : String
  styleHeight : String
deriving DecidableEq

/-- The async `capture` closure (page.tsx 83–117).  `encodeOk` models whether
`canvas.toDataURL` (line 101) succeeds; when it throws, the exception
propagates out of `capture` — there is no try/finally in the source — so the
result is `Except.error` carrying the state as left behind at the throw
point.  The second component lists the render-target configurations at which
`renderer.render(scene, camera)` was issued (lines 99 and 115). -/
def capture (encodeOk : Bool) (s : RenderState) :
    Except RenderState RenderState × List RenderState :=
  let originalPixelDensity := s.pixelDensity
  let originalWidth := s.width
  let originalHeight := s.height
  let originalAspect := s.aspect
  let prevStyleWidth := s.styleWidth
  let prevStyleHeight := s.styleHeight
  let exportConfigured : RenderState :=
    { pixelDensity := 1
      width := EXPORT_WIDTH
      height := EXPORT_HEIGHT
      aspect := EXPORT_WIDTH / EXPORT_HEIGHT
      projectionAspect := EXPORT_WIDTH / EXPORT_HEIGHT
      styleWidth := prevStyleWidth
      styleHeight := prevStyleHeight }
  if encodeOk then
    let restored : RenderState :=
      { pixelDensity := originalPixelDensity
        width := originalWidth
        height := originalHeight
        aspect := originalAspect
        projectionAspect := originalAspect
        styleWidth := prevStyleWidth
        styleHeight := prevStyleHeight }
    (Except.ok restored, [exportConfigured, restored])
  else
    (Except.error exportConfigured, [exportConfigured])

/-- State of the export trigger `SceneCanvas` (page.tsx 573–589): the render
state, the `isExporting` busy flag, and whether `captureRef.current` is
non-null.  React state updates are modelled as immediately visible, matching
the single-threaded event model of spec §5 in which the busy flag gates
re-entrant requests. -/
structure ExportState where
  render : RenderState
  isExporting : Bool
  captureAvailable : Bool
deriving DecidableEq

/-- Guard and flag-set of `handleExport` (page.tsx 582–584):
`if (!captureRef.current || isExporting) return;` then
`setIsExporting(true)`.  Returns `none` when the request is a no-op. -/
def exportBegin (st : ExportState) : Option ExportState :=
  if !st.captureAvailable || st.isExporting then none
  else some { st with isExporting := true }

/-- Completion of `handleExport`: `await captureRef.current()` inside
`try`, and `setIsExporting(false)` in the `finally` block (page.tsx
585–588), which runs on the success path and on the exception path alike. -/
def exportFinish (encodeOk : Bool) (st : ExportState) : ExportState :=
  match (capture encodeOk st.render).1 with
  | Except.ok r => { st with render := r, isExporting := false }
  | Except.error r => { st with render := r, isExporting := false }

/-- One full invocation of `handleExport`; the second component counts how
many resize-render-restore capture sequences were executed. -/
def handleExport (encodeOk : Bool) (st : ExportState) : ExportState × ℕ :=
  match exportBegin st with
  | none => (st, 0)
  | some st1 => (exportFinish encodeOk st1, 1)

/-- The re-entrant schedule: a first export request passes the guard, a
second request arrives while the first is still in progress (busy flag set),
then the first completes.  The count is the number of capture sequences
executed across both requests. -/
def overlappedExport (encodeOk : Bool) (st : ExportState) : ExportState × ℕ :=
  match exportBegin st with
  | none => (st, 0)
  | some st1 =>
    match exportBegin st1 with
    | some st2 => (exportFinish encodeOk (exportFinish encodeOk st2), 2)
    | none => (exportFinish encodeOk st1, 1)

/-- A concrete live-view configuration used as a test input: pixel density 2,
an 800×600 drawing buffer, aspect 4/3. -/
def exampleRenderState : RenderState :=
  { pixelDensity := 2
    width := 800
    height := 600
    aspect := 4 / 3
    projectionAspect := 4 / 3
    styleWidth := "800px"
    styleHeight := "540px" }

/-! ### Helper lemmas -/

theorem u32_lt (n : ℕ) : u32 n < 4294967296 :=
  Nat.mod_lt _ (by norm_num)

theorem prngStep_range (s : ℕ) : 0 ≤ (prngStep s).2 ∧ (prngStep s).2 < 1 := by
  have h : ∀ m : ℕ, 0 ≤ ((u32 m : ℚ) / 4294967296) ∧ ((u32 m : ℚ) / 4294967296) < 1 := by
    intro m
    constructor
    · positivity
    · rw [div_lt_one (by norm_num)]
      exact_mod_cast u32_lt m
  exact h _

theorem prngRun_mem_range (n : ℕ) :
    ∀ (s : ℕ) (q : ℚ), q ∈ prngRun s n → 0 ≤ q ∧ q < 1 := by
  induction n with
  | zero => intro s q hq; simp [prngRun] at hq
  | succ k ih =>
    intro s q hq
    rw [prngRun] at hq
    rcases List.mem_cons.mp hq with h | h
    · subst h; exact prngStep_range s
    · exact ih _ _ h

theorem jsMod_one_of_nonneg (a : ℚ) (ha : 0 ≤ a) : jsMod a 1 = Int.fract a := by
  have h1 : 0 ≤ a / 1 := by simpa using ha
  unfold jsMod jsTrunc Int.fract
  rw [div_one, if_pos ha]
  ring

theorem advanceProgress_mem (speed delta offset : ℚ) (hs : 0 ≤ speed)
    (hdel : 0 ≤ delta) (h0 : 0 ≤ offset) :
    0 ≤ advanceProgress speed delta offset ∧ advanceProgress speed delta offset < 1 := by
  have ha : 0 ≤ offset + delta * speed := add_nonneg h0 (mul_nonneg hdel hs)
  unfold advanceProgress
  rw [jsMod_one_of_nonneg _ ha]
  exact ⟨Int.fract_nonneg _, Int.fract_lt_one _⟩

theorem runProgress_invariant (speed : ℚ) (hs : 0 ≤ speed) :
    ∀ (deltas : List ℚ), (∀ d ∈ deltas, 0 ≤ d) →
      ∀ offset : ℚ, 0 ≤ offset → offset < 1 →
        0 ≤ runProgress speed offset deltas ∧ runProgress speed offset deltas < 1 := by
  intro deltas
  induction deltas with
  | nil => intro _ offset h0 h1; exact ⟨h0, h1⟩
  | cons d ds ih =>
    intro hd offset h0 _
    have hstep := advanceProgress_mem speed d offset hs (hd d (List.mem_cons_self d ds)) h0
    have hrest := ih (fun x hx => hd x (List.mem_cons_of_mem d hx)) _ hstep.1 hstep.2
    simpa [runProgress] using hrest

/-! ### Claim theorems -/

/-- C8: For every integer seed, the PRNG sequence is a function of the seed
and the call order alone (two runs from equal seeds coincide), every value it
yields lies in [0, 1), and the noise field built from the seeded PRNG returns
identical output on repeated calls at the same point. -/
theorem seeded_prng_and_noise_deterministic_in_range :
    (∀ (s : ℤ) (x y z : ℚ), noiseSample s x y z = noiseSample s x y z) ∧
    (∀ (s₁ s₂ : ℤ) (n : ℕ), s₁ = s₂ →
      createSeededRandom s₁ n = createSeededRandom s₂ n) ∧
    (∀ (s : ℤ) (n : ℕ) (q : ℚ), q ∈ createSeededRandom s n → 0 ≤ q ∧ q < 1) := by
  refine ⟨fun _ _ _ _ => rfl, fun s₁ s₂ n h => by rw [h], ?_⟩
  intro s n q hq
  exact prngRun_mem_range n _ q hq

/-- Witness for C8 at seed 1337: the first output of the PRNG lies in
[0, 1), and two runs from seed 1337 coincide. -/
theorem seeded_prng_and_noise_deterministic_in_range_witness :
    (0 ≤ (createSeededRandom 1337 1).headD 0 ∧ (createSeededRandom 1337 1).headD 0 < 1) ∧
    createSeededRandom 1337 2 = createSeededRandom 1337 2 :=
  ⟨seeded_prng_and_noise_deterministic_in_range.2.2 1337 1 _
      (by rw [show createSeededRandom 1337 1 = [(prngStep (toPattern 1337)).2] from rfl]
          exact List.mem_singleton.mpr rfl),
   seeded_prng_and_noise_deterministic_in_range.2.1 1337 1337 2 rfl⟩

/-- C2: a successful capture restores pixel density, viewport width and
height, camera aspect and both canvas style strings to exactly the values
they held immediately before the capture, for every starting
configuration. -/
theorem capture_success_restores_all_snapshotted_state (s : RenderState) :
    ∃ r : RenderState, (capture true s).1 = Except.ok r ∧
      r.pixelDensity = s.pixelDensity ∧ r.width = s.width ∧ r.height = s.height ∧
      r.aspect = s.aspect ∧ r.styleWidth = s.styleWidth ∧ r.styleHeight = s.styleHeight :=
  ⟨_, rfl, rfl, rfl, rfl, rfl, rfl, rfl⟩

/-- C1: the code violates the restore-on-all-exit-paths discipline.  When the
image-encoding step throws (`canvas.toDataURL`, line 101 — e.g. a
SecurityError on a tainted canvas), the exception propagates out of `capture`
(there is no try/finally), leaving the render target at the export
configuration: pixel density 1, 3200×4000 viewport, aspect 4/5 — none equal
to the snapshotted live values — and only one render (the export one) was
issued, so the final restore render never happens. -/
theorem capture_skips_restore_on_encode_failure :
    (capture false exampleRenderState).1 = Except.error
      { pixelDensity := 1
        width := EXPORT_WIDTH
        height := EXPORT_HEIGHT
        aspect := EXPORT_WIDTH / EXPORT_HEIGHT
        projectionAspect := EXPORT_WIDTH / EXPORT_HEIGHT
        styleWidth := "800px"
        styleHeight := "540px" } ∧
    (capture false exampleRenderState).2.length = 1 ∧
    (1 : ℚ) ≠ exampleRenderState.pixelDensity ∧
    EXPORT_WIDTH ≠ exampleRenderState.width ∧
    EXPORT_HEIGHT ≠ exampleRenderState.height ∧
    EXPORT_WIDTH / EXPORT_HEIGHT ≠ exampleRenderState.aspect := by
  refine ⟨rfl, rfl, ?_, ?_, ?_, ?_⟩ <;>
    norm_num [exampleRenderState, EXPORT_WIDTH, EXPORT_HEIGHT]

/-- C3: for every waterfall particle as created by the pool initializer (its
offset drawn in [0, 1) and its speed 0.18 + r·0.32 with r in [0, 1)), and for
every sequence of non-negative deltaTime values, the progress stays in
[0, 1) after every prefix of ticks — in particular it never grows without
bound and never becomes negative. -/
theorem waterfall_progress_invariant (rand : ℕ → ℚ)
    (hr : ∀ n, 0 ≤ rand n ∧ rand n < 1) (i : ℕ) (deltas : List ℚ)
    (hd : ∀ d ∈ deltas, 0 ≤ d) :
    0 ≤ runProgress (mkWaterfallParticle rand i).speed
          (mkWaterfallParticle rand i).offset deltas ∧
    runProgress (mkWaterfallParticle rand i).speed
          (mkWaterfallParticle rand i).offset deltas < 1 := by
  have hspeed : 0 ≤ (mkWaterfallParticle rand i).speed := by
    have := (hr (3 * i + 1)).1
    simp only [mkWaterfallParticle]
    nlinarith
  have hoff0 : 0 ≤ (mkWaterfallParticle rand i).offset := (hr (3 * i)).1
  have hoff1 : (mkWaterfallParticle rand i).offset < 1 := (hr (3 * i)).2
  exact runProgress_invariant _ hspeed deltas hd _ hoff0 hoff1

/-- Witness for C3: a particle drawn from the constant-zero entropy oracle,
advanced by the tick sequence [0.1, 0.05, 0]. -/
theorem waterfall_progress_invariant_witness :
    0 ≤ runProgress (mkWaterfallParticle (fun _ => 0) 0).speed
          (mkWaterfallParticle (fun _ => 0) 0).offset [0.1, 0.05, 0] ∧
    runProgress (mkWaterfallParticle (fun _ => 0) 0).speed
          (mkWaterfallParticle (fun _ => 0) 0).offset [0.1, 0.05, 0] < 1 :=
  waterfall_progress_invariant (fun _ => 0) (fun _ => by norm_num) 0 [0.1, 0.05, 0]
    (by intro d hd; fin_cases hd <;> norm_num)

/-- C4: the waterfall droplet scale is monotonically non-decreasing in
progress on [0, 1], equals 0.05 at progress 0, and approaches 0.28 as
progress approaches 1 (in the epsilon-delta sense, with the exact value 0.28
attained at 1). -/
theorem waterfall_scale_monotone :
    (∀ p q : ℚ, 0 ≤ p → p ≤ q → q ≤ 1 → waterfallScale p ≤ waterfallScale q) ∧
    waterfallScale 0 = 0.05 ∧ waterfallScale 1 = 0.28 ∧
    (∀ ε : ℚ, 0 < ε → ∃ δ : ℚ, 0 < δ ∧
      ∀ p : ℚ, 1 - δ < p → p ≤ 1 → |waterfallScale p - 0.28| < ε) := by
  refine ⟨?_, by norm_num [waterfallScale, lerp], by norm_num [waterfallScale, lerp], ?_⟩
  · intro p q hp hpq hq
    unfold waterfallScale lerp
    nlinarith [mul_nonneg (sub_nonneg.mpr hpq) (show (0 : ℚ) ≤ 2 - p - q by linarith)]
  · intro ε hε
    refine ⟨min ε 1, lt_min hε one_pos, ?_⟩
    intro p h1p hp1
    have key : waterfallScale p - 0.28 = -(23 / 100) * (1 - p) ^ 2 := by
      unfold waterfallScale lerp
      norm_num
      ring
    have hu0 : 0 ≤ 1 - p := by linarith
    have hud : 1 - p < min ε 1 := by linarith
    have hde : min ε 1 ≤ ε := min_le_left _ _
    have hd1 : min ε 1 ≤ 1 := min_le_right _ _
    rw [key, abs_of_nonpos (by nlinarith [sq_nonneg (1 - p)])]
    nlinarith [sq_nonneg (1 - p), mul_self_nonneg (1 - p)]

/-- Witness for C4 at the concrete pair (0, 1/2): the scale at progress 0 is
at most the scale at progress 1/2. -/
theorem waterfall_scale_monotone_witness :
    waterfallScale 0 ≤ waterfallScale (1 / 2) :=
  waterfall_scale_monotone.1 0 (1 / 2) (by norm_num) (by norm_num) (by norm_num)

/-- C5: for every noise field, every normal-recomputation collaborator and
every input mesh, the displacement pass maps the vertex at each index to the
displaced copy of the pre-displacement vertex at the same index; each vertex
is multiplied by the scalar 1 + base·0.55 + |ridge|³·0.3, where base samples
the noise at (x·0.65, y·0.8, z·0.65) and ridge at (x·1.2, y·0.4, z·1.4) of
the pre-displacement position; the normals of the result are those
recomputed from the final (displaced) geometry; and a vertex at the origin
stays at the origin. -/
theorem rock_displacement_pointwise (noise : ℚ → ℚ → ℚ → ℚ)
    (computeVertexNormals : List Vec3 → List ℕ → List Vec3) (g : BufferGeometry) :
    (∀ i : ℕ, (displaceGeometry noise computeVertexNormals g).positions[i]? =
      Option.map (displaceVertex noise) g.positions[i]?) ∧
    (displaceGeometry noise computeVertexNormals g).normals =
      computeVertexNormals
        (displaceGeometry noise computeVertexNormals g).positions g.indices ∧
    (∀ v : Vec3, displaceVertex noise v =
      smul (1 + noise (v.x * 0.65) (v.y * 0.8) (v.z * 0.65) * 0.55 +
        |noise (v.x * 1.2) (v.y * 0.4) (v.z * 1.4)| ^ 3 * 0.3) v) ∧
    displaceVertex noise ⟨0, 0, 0⟩ = ⟨0, 0, 0⟩ := by
  refine ⟨?_, rfl, fun v => rfl, ?_⟩
  · intro i
    simp [displaceGeometry]
  · simp [displaceVertex, smul]

/-- C6: the displacement pass leaves the vertex count and the triangle index
list of the mesh unchanged, for every noise field, normal collaborator and
input mesh. -/
theorem rock_displacement_preserves_topology (noise : ℚ → ℚ → ℚ → ℚ)
    (computeVertexNormals : List Vec3 → List ℕ → List Vec3) (g : BufferGeometry) :
    (displaceGeometry noise computeVertexNormals g).positions.length =
      g.positions.length ∧
    (displaceGeometry noise computeVertexNormals g).indices = g.indices :=
  ⟨by simp [displaceGeometry], rfl⟩

/-- C7: in the re-entrant schedule — a second export request arriving while
the first is in progress — exactly one capture sequence executes, the second
request is a no-op, and the first capture completes: the busy flag is clear
and every render-target property is back at its pre-capture value. -/
theorem reentrant_export_single_capture (st : ExportState)
    (hAvail : st.captureAvailable = true) (hIdle : st.isExporting = false) :
    (overlappedExport true st).2 = 1 ∧
    (overlappedExport true st).1.isExporting = false ∧
    (overlappedExport true st).1.render.pixelDensity = st.render.pixelDensity ∧
    (overlappedExport true st).1.render.width = st.render.width ∧
    (overlappedExport true st).1.render.height = st.render.height ∧
    (overlappedExport true st).1.render.aspect = st.render.aspect ∧
    (overlappedExport true st).1.render.styleWidth = st.render.styleWidth ∧
    (overlappedExport true st).1.render.styleHeight = st.render.styleHeight := by
  have h1 : exportBegin st = some { st with isExporting := true } := by
    simp [exportBegin, hAvail, hIdle]
  have h2 : exportBegin { st with isExporting := true } = none := by
    simp [exportBegin]
  simp [overlappedExport, h1, h2, exportFinish, capture]

/-- Witness for C7 at the concrete idle state built on
`exampleRenderState`. -/
theorem reentrant_export_single_capture_witness :
    (overlappedExport true ⟨exampleRenderState, false, true⟩).2 = 1 ∧
    (overlappedExport true ⟨exampleRenderState, false, true⟩).1.isExporting = false ∧
    (overlappedExport true ⟨exampleRenderState, false, true⟩).1.render.pixelDensity =
      exampleRenderState.pixelDensity ∧
    (overlappedExport true ⟨exampleRenderState, false, true⟩).1.render.width =
      exampleRenderState.width ∧
    (overlappedExport true ⟨exampleRenderState, false, true⟩).1.render.height =
      exampleRenderState.height ∧
    (overlappedExport true ⟨exampleRenderState, false, true⟩).1.render.aspect =
      exampleRenderState.aspect ∧
    (overlappedExport true ⟨exampleRenderState, false, true⟩).1.render.styleWidth =
      exampleRenderState.styleWidth ∧
    (overlappedExport true ⟨exampleRenderState, false, true⟩).1.render.styleHeight =
      exampleRenderState.styleHeight :=
  reentrant_export_single_capture ⟨exampleRenderState, false, true⟩ rfl rfl

/-- C10: starting from an idle trigger, `handleExport` ends with the busy
flag cleared whether the capture succeeds or throws (the reset is in a
`finally` block), and a later export request then executes a capture
sequence again. -/
theorem export_flag_cleared_on_all_paths (encodeOk : Bool) (st : ExportState)
    (hIdle : st.isExporting = false) :
    ((handleExport encodeOk st).1).isExporting = false ∧
    (st.captureAvailable = true →
      (handleExport true ((handleExport encodeOk st).1)).2 = 1) := by
  cases hca : st.captureAvailable with
  | false =>
    have h1 : exportBegin st = none := by simp [exportBegin, hca]
    constructor
    · simp [handleExport, h1, hIdle]
    · intro h; simp at h
  | true =>
    have h1 : exportBegin st = some { st with isExporting := true } := by
      simp [exportBegin, hca, hIdle]
    have hfin : handleExport encodeOk st =
        (exportFinish encodeOk { st with isExporting := true }, 1) := by
      simp [handleExport, h1]
    constructor
    · rw [hfin]
      cases encodeOk <;> simp [exportFinish, capture]
    · intro _
      rw [hfin]
      cases encodeOk <;>
        simp [handleExport, exportBegin, exportFinish, capture, hca]

/-- Witness for C10: the throwing-capture path at the concrete idle state;
the flag is cleared and a subsequent export runs one capture sequence. -/
theorem export_flag_cleared_on_all_paths_witness :
    ((handleExport false ⟨exampleRenderState, false, true⟩).1).isExporting = false ∧
    ((⟨exampleRenderState, false, true⟩ : ExportState).captureAvailable = true →
      (handleExport true ((handleExport false ⟨exampleRenderState, false, true⟩).1)).2 = 1) :=
  export_flag_cleared_on_all_paths false ⟨exampleRenderState, false, true⟩ rfl

/-- C9 counterexample: the claim that the particle systems are deterministic
given a seed — that is, independent of any external entropy source — is
false: particle creation reads the unseeded `Math.random()` (modelled as the
entropy oracle), and two runs over different oracle outputs produce different
pools.  Concretely, the constant-0 oracle and the constant-1/2 oracle give
particle 0 the offsets 0 and 1/2 respectively. -/
theorem particle_constants_not_seed_deterministic :
    ¬ ∀ r₁ r₂ : ℕ → ℚ, mkWaterfallParticles r₁ = mkWaterfallParticles r₂ := by
  intro h
  have h0 := congrArg (fun l => Option.map Particle.offset l[0]?)
    (h (fun _ => 0) (fun _ => 1 / 2))
  simp [mkWaterfallParticles, mkWaterfallParticle, WATERFALL_PARTICLES] at h0

/-- C9 amended: the per-particle constants are deterministic functions of the
entropy draws consumed at creation (2700 `Math.random()` calls for the
waterfall pool, 900 for the spray pool) and of nothing else; two runs whose
draws coincide on that prefix create identical pools, and the waterfall
trajectory is a pure function of the per-particle constants. -/
theorem particle_constants_determined_by_entropy_prefix :
    (∀ r₁ r₂ : ℕ → ℚ, (∀ i, i < 3 * WATERFALL_PARTICLES → r₁ i = r₂ i) →
      mkWaterfallParticles r₁ = mkWaterfallParticles r₂) ∧
    (∀ r₁ r₂ : ℕ → ℚ, (∀ i, i < 5 * SPRAY_PARTICLES → r₁ i = r₂ i) →
      mkSprayParticles r₁ = mkSprayParticles r₂) ∧
    (∀ (sine cosine : ℚ → ℚ) (p₁ p₂ : Particle), p₁ = p₂ →
      flowPosition sine cosine p₁.offset p₁.jitter =
        flowPosition sine cosine p₂.offset p₂.jitter) := by
  refine ⟨?_, ?_, ?_⟩
  · intro r₁ r₂ hr
    unfold mkWaterfallParticles
    refine List.map_congr_left ?_
    intro a ha
    have ha9 : a < 900 := by simpa [WATERFALL_PARTICLES] using List.mem_range.mp ha
    have h0 := hr (3 * a) (by simp only [WATERFALL_PARTICLES]; omega)
    have h1 := hr (3 * a + 1) (by simp only [WATERFALL_PARTICLES]; omega)
    have h2 := hr (3 * a + 2) (by simp only [WATERFALL_PARTICLES]; omega)
    unfold mkWaterfallParticle
    rw [h0, h1, h2]
  · intro r₁ r₂ hr
    unfold mkSprayParticles
    refine List.map_congr_left ?_
    intro a ha
    have ha1 : a < 180 := by simpa [SPRAY_PARTICLES] using List.mem_range.mp ha
    have h0 := hr (5 * a) (by simp only [SPRAY_PARTICLES]; omega)
    have h1 := hr (5 * a + 1) (by simp only [SPRAY_PARTICLES]; omega)
    have h2 := hr (5 * a + 2) (by simp only [SPRAY_PARTICLES]; omega)
    have h3 := hr (5 * a + 3) (by simp only [SPRAY_PARTICLES]; omega)
    have h4 := hr (5 * a + 4) (by simp only [SPRAY_PARTICLES]; omega)
    unfold mkSprayParticle
    rw [h0, h1, h2, h3, h4]
  · intro sine cosine p₁ p₂ h
    rw [h]

/-- Witness for C9 amended: two runs over the constant-zero oracle create
equal waterfall pools. -/
theorem particle_constants_determined_by_entropy_prefix_witness :
    mkWaterfallParticles (fun _ => 0) = mkWaterfallParticles (fun _ => 0) :=
  particle_constants_determined_by_entropy_prefix.1 _ _ (fun _ _ => rfl)

end Moonfall
